import Mathlib

/-!
# Verification of `sampark_ai_multilingual_chat.py`

A shallow embedding of the single source file of the Sampark-AI repository.
The program sequences two external network services (a generative language
model and a translation endpoint).  External effects are modelled by an
explicit oracle (`Services`): each outcome is either `.ok` with the text the
service returned or `.error` with the message of the Python exception raised.
Every observable action of the program (client construction, model
invocation, translation invocation, `print` output, warning output) is
recorded in an event trace, so that claims about which calls are or are not
made become statements about the trace.
-/

namespace Sampark

/-- ASCII lowering of one character, as in `Char.toLower`; this is the
fragment of Python `str.lower` exercised by the program's language codes. -/
def pyCharLower (c : Char) : Char := c.toLower

/-- ASCII fragment of Python `str.lower`, character by character. -/
def pyLower (s : String) : String := String.mk (s.data.map pyCharLower)

/-- ASCII fragment of Python `str.upper`, character by character. -/
def pyUpper (s : String) : String := String.mk (s.data.map Char.toUpper)

/-- The configuration of the `ChatGoogleGenerativeAI` client built by
`initialize_ai_model` (source line 15): a model name and a temperature.
The temperature is the literal `0.2`, represented exactly as a rational. -/
structure ModelConfig where
  model : String
  temperature : ℚ
deriving DecidableEq, Repr

/-- `initialize_ai_model` (source lines 12-16): returns the fixed client
configuration. -/
def init_ai_model : ModelConfig :=
  { model := "gemini-2.5-flash", temperature := 0.2 }

/-- A LangChain message: `SystemMessage` or `HumanMessage` with its content. -/
inductive Message where
  | system (content : String)
  | human (content : String)
deriving DecidableEq, Repr

/-- Observable actions of the program, in program order. -/
inductive Event where
  /-- Construction of the model client (`initialize_ai_model()`). -/
  | initModel (cfg : ModelConfig)
  /-- An attempted `model.invoke(messages)` call. -/
  | modelCall (messages : List Message)
  /-- An attempted translation call: `translate_client.translate(text,
  target_language=target_language_code)` (including client construction). -/
  | translateCall (text : String) (target : String)
  /-- A `print(...)` of ordinary output. -/
  | printLine (s : String)
  /-- The warning printed when translation fails. -/
  | warnLine (s : String)
deriving DecidableEq, Repr

/-- `True` exactly on translation-call events; used to count the calls the
program makes to the external translation service. -/
def Event.isTranslateCall : Event → Bool
  | .translateCall _ _ => true
  | _ => false

/-- `True` exactly on model-invocation events. -/
def Event.isModelCall : Event → Bool
  | .modelCall _ => true
  | _ => false

/-- `True` exactly on client-construction events. -/
def Event.isInitModel : Event → Bool
  | .initModel _ => true
  | _ => false

/-- Oracle for the two external services.  `modelOutcome` is the result of
`model.invoke(messages).content` (`.error e` means the call raised the
exception whose string form is `e`); `translateOutcome text target` is the
result of the translation attempt, covering both `translate.Client()`
construction and `result['translatedText']` lookup. -/
structure Services where
  modelOutcome : List Message → Except String String
  translateOutcome : String → String → Except String String

/-- `translate_text` (source lines 19-29).  Attempts the translation call;
on success returns `result['translatedText']`, on any exception prints a
warning and returns the input text unchanged.  The returned trace records
the attempt and, on failure, the warning.  The Lean return type `String`
(not `Except`) reflects that the Python function catches every exception
and always returns normally. -/
def translate_text (svc : Services) (text : String)
    (target_language_code : String) : String × List Event :=
  match svc.translateOutcome text target_language_code with
  | .ok translated => (translated, [.translateCall text target_language_code])
  | .error e =>
      (text,
        [.translateCall text target_language_code,
         .warnLine ("Warning: Translation failed (" ++ e ++
           "). Falling back to English response.")])

/-- The fixed system instruction of `sampark_ai_chat` (source lines 42-46). -/
def system_instruction : String :=
  "You are Sampark-AI, a helpful, polite, and official customer support assistant " ++
  "for a government agency. Keep your answers concise, accurate, and professional. " ++
  "Always respond in clear, formal English, as your final output will be translated."

/-- The two-message prompt `messages` built by `sampark_ai_chat`
(source lines 49-52). -/
def chat_messages (user_prompt : String) : List Message :=
  [Message.system system_instruction, Message.human user_prompt]

/-- `sampark_ai_chat` (source lines 32-70).  Builds the client, sends the
two-message prompt, and on success either returns the English text (target
code lowercasing to "en") or forwards it to `translate_text` and returns
that result; on model failure returns an "AI Error:" string.  The second
component is the trace of observable actions, in program order. -/
def sampark_ai_chat (svc : Services) (user_prompt : String)
    (language_code : String := "en") : String × List Event :=
  let cfg := init_ai_model
  let messages := chat_messages user_prompt
  let ev0 : List Event :=
    [.initModel cfg,
     .printLine ("\n[USER PROMPT in " ++ pyUpper language_code ++ "]: " ++
       user_prompt),
     .modelCall messages]
  match svc.modelOutcome messages with
  | .error e =>
      ("AI Error: Could not generate response. Check your GEMINI_API_KEY. Details: "
        ++ e, ev0)
  | .ok ai_response_en =>
      let ev1 := ev0 ++ [.printLine ("[AI RESPONSE (English)]: " ++ ai_response_en)]
      if pyLower language_code ≠ "en" then
        let tr := translate_text svc ai_response_en language_code
        (tr.1,
          ev1 ++ tr.2 ++
            [.printLine ("[AI RESPONSE (" ++ pyUpper language_code ++ ")]: " ++
              tr.1)])
      else
        (ai_response_en, ev1)

/-- Python truthiness of an `os.getenv` result: `None` and the empty string
are falsy, every other string is truthy. -/
def truthy : Option String → Bool
  | none => false
  | some s => s ≠ ""

/-- The module-level `GEMINI_API_KEY` gate (source lines 8-9), run before
anything else in the module: raises `ValueError` when the variable is
absent or empty. -/
def startup_check (env : String → Option String) : Except String Unit :=
  if truthy (env "GEMINI_API_KEY") then Except.ok ()
  else Except.error "GEMINI_API_KEY environment variable not set."

/-- One top-level action of the `__main__` block: a `print` or a call to
`sampark_ai_chat` with a prompt and a language code. -/
inductive MainAction where
  | printLine (s : String)
  | chatCall (user_prompt : String) (language_code : String)
deriving DecidableEq, Repr

/-- Extracts the (prompt, code) arguments from a `chatCall` action. -/
def MainAction.callArgs : MainAction → Option (String × String)
  | .chatCall p c => some (p, c)
  | .printLine _ => none

/-- The `__main__` block (source lines 74-96) as its sequence of top-level
actions, in program order. -/
def main_script : List MainAction :=
  [ .printLine "--- Example 1: English Query ---",
    .chatCall "What is the process for applying for a new identity card?" "en",
    .printLine ("\n" ++ String.mk (List.replicate 50 '=') ++ "\n"),
    .printLine "--- Example 2: Hindi Query and Response ('hi') ---",
    .chatCall "मैं अपनी बेटी के लिए जन्म प्रमाण पत्र कैसे प्राप्त कर सकता हूं?" "hi",
    .printLine ("\n" ++ String.mk (List.replicate 50 '=') ++ "\n"),
    .printLine "--- Example 3: Spanish Query and Response ('es') ---",
    .chatCall "Necesito saber el horario de la oficina de impuestos." "es" ]

/-- Running the script: the module body runs first (imports, then the
`GEMINI_API_KEY` gate); only if the gate passes does the `__main__` block
run, performing `main_script`.  `.error` means the startup `ValueError`
propagated before any service call. -/
def run_script (env : String → Option String) :
    Except String (List MainAction) :=
  match startup_check env with
  | .error e => .error e
  | .ok _ => .ok main_script

/-- A sequence of invocations of `sampark_ai_chat`: call `i` is made with
`args i = (prompt, code)` against the service behaviour `svc i` the
external world exhibits at that call.  Python keeps no state between calls,
so the embedding maps each call independently. -/
def run_calls (svc : ℕ → Services) (args : List (String × String)) :
    List (String × List Event) :=
  (List.range args.length).map fun i =>
    sampark_ai_chat (svc i) (args[i]!).1 (args[i]!).2

/-! ## Concrete service behaviours, used to instantiate the theorems -/

/-- A world where both services succeed: the model answers "OUT" and the
translation service tags its input with the target code. -/
def svcModelOk : Services :=
  { modelOutcome := fun _ => .ok "OUT",
    translateOutcome := fun t c => .ok ("TR[" ++ c ++ "]" ++ t) }

/-- A world where the model call raises "boom". -/
def svcModelErr : Services :=
  { modelOutcome := fun _ => .error "boom",
    translateOutcome := fun t c => .ok ("TR[" ++ c ++ "]" ++ t) }

/-- A world where the model succeeds but every translation call raises. -/
def svcTransErr : Services :=
  { modelOutcome := fun _ => .ok "OUT",
    translateOutcome := fun _ _ => .error "no creds" }

/-! ## Helper lemmas -/

/-- Lowercasing the literal "en" is the identity. -/
theorem pyLower_en : pyLower "en" = "en" := rfl

/-! ## The claims -/

/-- C1: for every user prompt, if `sampark_ai_chat` is called with
language_code 'en' and the model call succeeds, the returned text equals
the model's raw English output and `translate_text` is never called (no
translation-call event appears in the trace). -/
theorem c1_en_returns_raw_output (svc : Services) (p s : String)
    (h : svc.modelOutcome (chat_messages p) = .ok s) :
    (sampark_ai_chat svc p "en").1 = s ∧
      ∀ e ∈ (sampark_ai_chat svc p "en").2, e.isTranslateCall = false := by
  simp [sampark_ai_chat, h, pyLower_en, Event.isTranslateCall]

/-- Witness for C1 at a concrete input. -/
theorem c1_en_returns_raw_output_witness :
    svcModelOk.modelOutcome (chat_messages "Hello") = .ok "OUT" ∧
      ((sampark_ai_chat svcModelOk "Hello" "en").1 = "OUT" ∧
        ∀ e ∈ (sampark_ai_chat svcModelOk "Hello" "en").2,
          e.isTranslateCall = false) :=
  ⟨rfl, c1_en_returns_raw_output svcModelOk "Hello" "OUT" rfl⟩

/-- C2: for every prompt and every non-English target code, if the model
call succeeds, `sampark_ai_chat` makes exactly one translation call, with
the model's English output as the text and the given code as the target,
and returns `translate_text`'s result. -/
theorem c2_non_en_translates_once (svc : Services) (p c s : String)
    (hc : pyLower c ≠ "en")
    (h : svc.modelOutcome (chat_messages p) = .ok s) :
    (sampark_ai_chat svc p c).1 = (translate_text svc s c).1 ∧
      (sampark_ai_chat svc p c).2.filter Event.isTranslateCall =
        [Event.translateCall s c] := by
  rcases ht : svc.translateOutcome s c with e | t <;>
    simp [sampark_ai_chat, h, hc, translate_text, ht, Event.isTranslateCall]

/-- Witness for C2 at a concrete input. -/
theorem c2_non_en_translates_once_witness :
    pyLower "hi" ≠ "en" ∧
      svcModelOk.modelOutcome (chat_messages "Hello") = .ok "OUT" ∧
      ((sampark_ai_chat svcModelOk "Hello" "hi").1 =
          (translate_text svcModelOk "OUT" "hi").1 ∧
        (sampark_ai_chat svcModelOk "Hello" "hi").2.filter
            Event.isTranslateCall = [Event.translateCall "OUT" "hi"]) :=
  ⟨by decide, rfl, c2_non_en_translates_once svcModelOk "Hello" "hi" "OUT"
    (by decide) rfl⟩

/-- C3: for every input text and target code, if the underlying translation
call raises, `translate_text` returns the original input text unchanged and
emits the warning.  Non-propagation is structural: the Lean embedding of
`translate_text` has total return type `String × List Event`, mirroring the
Python `except Exception` arm that always returns normally. -/
theorem c3_translate_fallback (svc : Services) (t c e : String)
    (h : svc.translateOutcome t c = .error e) :
    (translate_text svc t c).1 = t ∧
      Event.warnLine ("Warning: Translation failed (" ++ e ++
          "). Falling back to English response.") ∈
        (translate_text svc t c).2 := by
  simp [translate_text, h]

/-- Witness for C3 at a concrete input. -/
theorem c3_translate_fallback_witness :
    svcTransErr.translateOutcome "OUT" "hi" = .error "no creds" ∧
      ((translate_text svcTransErr "OUT" "hi").1 = "OUT" ∧
        Event.warnLine ("Warning: Translation failed (" ++ "no creds" ++
            "). Falling back to English response.") ∈
          (translate_text svcTransErr "OUT" "hi").2) :=
  ⟨rfl, c3_translate_fallback svcTransErr "OUT" "hi" "no creds" rfl⟩

/-- C4: if the `GEMINI_API_KEY` environment variable is absent or empty,
the script raises at startup: `run_script` yields the `ValueError` message
and the `__main__` actions (hence every model or translation invocation)
never run. -/
theorem c4_missing_key_fails_fast (env : String → Option String)
    (h : env "GEMINI_API_KEY" = none ∨ env "GEMINI_API_KEY" = some "") :
    run_script env =
      .error "GEMINI_API_KEY environment variable not set." := by
  rcases h with h | h <;> simp [run_script, startup_check, truthy, h]

/-- Witness for C4 at a concrete environment. -/
theorem c4_missing_key_fails_fast_witness :
    ((fun _ : String => (none : Option String)) "GEMINI_API_KEY" = none ∨
      (fun _ : String => (none : Option String)) "GEMINI_API_KEY" = some "") ∧
    run_script (fun _ => none) =
      .error "GEMINI_API_KEY environment variable not set." :=
  ⟨Or.inl rfl, c4_missing_key_fails_fast (fun _ => none) (Or.inl rfl)⟩

/-- C5: for every input, if the model invocation raises, `sampark_ai_chat`
returns the error-message string beginning "AI Error:" instead of
propagating the exception (the embedding's total return type mirrors the
Python `except` arm that returns normally). -/
theorem c5_model_error_string (svc : Services) (p c e : String)
    (h : svc.modelOutcome (chat_messages p) = .error e) :
    (sampark_ai_chat svc p c).1 =
        "AI Error: Could not generate response. Check your GEMINI_API_KEY. Details: "
          ++ e ∧
      ∃ rest, (sampark_ai_chat svc p c).1 = "AI Error:" ++ rest := by
  refine ⟨by simp [sampark_ai_chat, h], ?_⟩
  refine ⟨" Could not generate response. Check your GEMINI_API_KEY. Details: "
    ++ e, ?_⟩
  simp [sampark_ai_chat, h, ← String.append_assoc]

/-- Witness for C5 at a concrete input. -/
theorem c5_model_error_string_witness :
    svcModelErr.modelOutcome (chat_messages "Hello") = .error "boom" ∧
      ((sampark_ai_chat svcModelErr "Hello" "hi").1 =
          "AI Error: Could not generate response. Check your GEMINI_API_KEY. Details: "
            ++ "boom" ∧
        ∃ rest, (sampark_ai_chat svcModelErr "Hello" "hi").1 =
          "AI Error:" ++ rest) :=
  ⟨rfl, c5_model_error_string svcModelErr "Hello" "hi" "boom" rfl⟩

/-- C6: `sampark_ai_chat` keeps no state between calls.  In a sequence of
invocations, the result of call `i` is determined by call `i`'s arguments
and the external services' behaviour at call `i` alone: two sequences that
agree there (but may differ arbitrarily at every earlier call) produce the
same result at position `i`. -/
theorem c6_stateless (svc1 svc2 : ℕ → Services)
    (a1 a2 : List (String × String)) (i : ℕ)
    (h1 : i < a1.length) (h2 : i < a2.length)
    (hsvc : svc1 i = svc2 i) (harg : a1[i]! = a2[i]!) :
    (run_calls svc1 a1)[i]? = (run_calls svc2 a2)[i]? := by
  simp [run_calls, List.getElem?_map, List.getElem?_range h1,
    List.getElem?_range h2, hsvc, harg]

/-- Witness for C6: two sequences differing in their first call and its
service behaviour agree at position 1, where arguments and behaviour
coincide. -/
theorem c6_stateless_witness :
    (1 < ([("a", "fr"), ("q", "hi")] : List (String × String)).length ∧
      1 < ([("b", "en"), ("q", "hi")] : List (String × String)).length ∧
      (fun i => if i = 0 then svcModelErr else svcModelOk) 1 =
        (fun _ : ℕ => svcModelOk) 1 ∧
      (([("a", "fr"), ("q", "hi")] : List (String × String))[1]!) =
        (([("b", "en"), ("q", "hi")] : List (String × String))[1]!)) ∧
    (run_calls (fun i => if i = 0 then svcModelErr else svcModelOk)
        [("a", "fr"), ("q", "hi")])[1]? =
      (run_calls (fun _ => svcModelOk) [("b", "en"), ("q", "hi")])[1]? :=
  ⟨⟨by decide, by decide, rfl, rfl⟩,
    c6_stateless (fun i => if i = 0 then svcModelErr else svcModelOk)
      (fun _ => svcModelOk) [("a", "fr"), ("q", "hi")]
      [("b", "en"), ("q", "hi")] 1 (by decide) (by decide) rfl rfl⟩

/-- C7: every call to `sampark_ai_chat`, whatever the prompt, language code
and service outcomes, constructs the model client exactly once, with the
fixed parameters model "gemini-2.5-flash" and temperature 0.2. -/
theorem c7_fixed_client (svc : Services) (p c : String) :
    (sampark_ai_chat svc p c).2.filter Event.isInitModel =
      [Event.initModel
        { model := "gemini-2.5-flash", temperature := 0.2 }] := by
  rcases h : svc.modelOutcome (chat_messages p) with e | s
  · simp [sampark_ai_chat, h, init_ai_model, Event.isInitModel]
  · by_cases hc : pyLower c = "en" <;>
      rcases ht : svc.translateOutcome s c with e' | t <;>
      simp [sampark_ai_chat, h, hc, translate_text, ht, init_ai_model,
        Event.isInitModel]

/-- C8: when the `GEMINI_API_KEY` gate passes, a command-line run performs
the `__main__` block; its `sampark_ai_chat` invocations are exactly the
three hard-coded ones, in order with language codes 'en', 'hi' and 'es',
and every other top-level action is a print of a fixed string. -/
theorem c8_main_three_calls (env : String → Option String)
    (h : truthy (env "GEMINI_API_KEY") = true) :
    run_script env = .ok main_script ∧
      main_script.filterMap MainAction.callArgs =
        [("What is the process for applying for a new identity card?", "en"),
         ("मैं अपनी बेटी के लिए जन्म प्रमाण पत्र कैसे प्राप्त कर सकता हूं?", "hi"),
         ("Necesito saber el horario de la oficina de impuestos.", "es")] ∧
      ∀ a ∈ main_script, (∃ s, a = MainAction.printLine s) ∨
        ∃ p c, a = MainAction.chatCall p c := by
  refine ⟨by simp [run_script, startup_check, h], by simp [main_script,
    MainAction.callArgs], ?_⟩
  intro a _
  cases a with
  | printLine s => exact Or.inl ⟨s, rfl⟩
  | chatCall p c => exact Or.inr ⟨p, c, rfl⟩

/-- Witness for C8 with a concrete environment holding the key. -/
theorem c8_main_three_calls_witness :
    truthy ((fun _ : String => some "k") "GEMINI_API_KEY") = true ∧
      (run_script (fun _ => some "k") = .ok main_script ∧
        main_script.filterMap MainAction.callArgs =
          [("What is the process for applying for a new identity card?",
              "en"),
           ("मैं अपनी बेटी के लिए जन्म प्रमाण पत्र कैसे प्राप्त कर सकता हूं?", "hi"),
           ("Necesito saber el horario de la oficina de impuestos.", "es")] ∧
        ∀ a ∈ main_script, (∃ s, a = MainAction.printLine s) ∨
          ∃ p c, a = MainAction.chatCall p c) :=
  ⟨by decide, c8_main_three_calls (fun _ => some "k") (by decide)⟩

/-- C9: if the model invocation raises, `sampark_ai_chat` returns
immediately — the trace stops at the model call — so `translate_text` is
never reached and no translation-call event occurs, for any language
code. -/
theorem c9_no_translate_after_model_error (svc : Services) (p c e : String)
    (h : svc.modelOutcome (chat_messages p) = .error e) :
    (sampark_ai_chat svc p c).2 =
        [Event.initModel init_ai_model,
         Event.printLine ("\n[USER PROMPT in " ++ pyUpper c ++ "]: " ++ p),
         Event.modelCall (chat_messages p)] ∧
      ∀ ev ∈ (sampark_ai_chat svc p c).2, ev.isTranslateCall = false := by
  simp [sampark_ai_chat, h, Event.isTranslateCall]

/-- Witness for C9 at a concrete input. -/
theorem c9_no_translate_after_model_error_witness :
    svcModelErr.modelOutcome (chat_messages "Hello") = .error "boom" ∧
      ((sampark_ai_chat svcModelErr "Hello" "hi").2 =
          [Event.initModel init_ai_model,
           Event.printLine ("\n[USER PROMPT in " ++ pyUpper "hi" ++ "]: " ++
             "Hello"),
           Event.modelCall (chat_messages "Hello")] ∧
        ∀ ev ∈ (sampark_ai_chat svcModelErr "Hello" "hi").2,
          ev.isTranslateCall = false) :=
  ⟨rfl, c9_no_translate_after_model_error svcModelErr "Hello" "hi" "boom"
    rfl⟩

/-- C10: the English check is defaulted and case-insensitive: omitting
`language_code` is the same call as passing "en", and any code whose
lowercase form is "en" skips translation and returns the English model
output directly. -/
theorem c10_en_default_case_insensitive :
    (∀ svc p, sampark_ai_chat svc p = sampark_ai_chat svc p "en") ∧
      ∀ svc p c s, pyLower c = "en" →
        svc.modelOutcome (chat_messages p) = .ok s →
        (sampark_ai_chat svc p c).1 = s ∧
          ∀ e ∈ (sampark_ai_chat svc p c).2, e.isTranslateCall = false := by
  refine ⟨fun svc p => rfl, fun svc p c s hc h => ?_⟩
  simp [sampark_ai_chat, h, hc, Event.isTranslateCall]

/-- Witness for C10 at the mixed-case code "En". -/
theorem c10_en_default_case_insensitive_witness :
    (sampark_ai_chat svcModelOk "Hello" = sampark_ai_chat svcModelOk "Hello"
        "en") ∧
      pyLower "En" = "en" ∧
      svcModelOk.modelOutcome (chat_messages "Hello") = .ok "OUT" ∧
      ((sampark_ai_chat svcModelOk "Hello" "En").1 = "OUT" ∧
        ∀ e ∈ (sampark_ai_chat svcModelOk "Hello" "En").2,
          e.isTranslateCall = false) :=
  ⟨c10_en_default_case_insensitive.1 svcModelOk "Hello", by decide, rfl,
    c10_en_default_case_insensitive.2 svcModelOk "Hello" "En" "OUT"
      (by decide) rfl⟩

end Sampark
